import Mathlib

/-!
Verification development for the FPL season optimiser's deterministic rule
engine: formation checking, team validation, gameweek scoring with automatic
substitutions, bench-role assignment, and transfer-state bookkeeping.

Each definition is a shallow embedding of the corresponding Python function,
translated line by line from the repository's source:
  - `validate_formation`, `validate_team`   from backtester/fpl_validator.py
  - `calculate_gameweek_points`             from backtester/fpl_point_calculator.py
  - `assign_bench_positions`                from optimiser/utils.py
  - `selling_price_milp`, `milp_remaining_free_transfers`
                                            from optimiser/milp/post_gw1_step1.py
  - `selling_price_minizinc`, `minizinc_f_new`
                                            from optimiser/cp_minizinc/post_gw1_step1_minizinc.py

Player ids and club ids are modelled as `Nat`; money (tenths of a currency
unit) as `Nat`; realised and expected points as `Int` (the repository scales
expected points to integers in the MiniZinc pipeline); `math.ceil` over
`0.5 * n` for an integer `n` is exact in double precision for every value the
program can produce, so it is embedded as the exact natural-number ceiling.
-/

/-- The four FPL positions, the values of the `position` column. -/
inductive Pos where
  | GK
  | DEF
  | MID
  | FWD
deriving DecidableEq

/-- One row of a per-gameweek player table (`gw_df`). -/
structure PlayerRow where
  pid : Nat
  pos : Pos
  club : Nat
  points : Int
  minutes : Nat
deriving DecidableEq

/-- The `position` column rendered as the Python strings. -/
def posName : Pos → String
  | Pos.GK => "GK"
  | Pos.DEF => "DEF"
  | Pos.MID => "MID"
  | Pos.FWD => "FWD"

/-- Embedding of `value_counts().get(p, 0)` over the `position` column of a frame. -/
def countPos (p : Pos) (df : List PlayerRow) : Nat :=
  (df.filter (fun r => r.pos = p)).length

/-- Embedding of `validate_formation` from backtester/fpl_validator.py: exactly 1 GK always,
3-5 DEF always, 2-5 MID only when the total size is at least 4, 1-3 FWD only
when the total size is at least 5, checked in that order. -/
def validate_formation (df : List PlayerRow) : Bool × String :=
  let gk := countPos Pos.GK df
  let defn := countPos Pos.DEF df
  let mid := countPos Pos.MID df
  let fwd := countPos Pos.FWD df
  let total := gk + defn + mid + fwd
  if gk ≠ 1 then
    (false, "Formation must have exactly 1 GK, found " ++ toString gk)
  else if defn < 3 ∨ 5 < defn then
    (false, "Formation must have 3-5 DEF, found " ++ toString defn)
  else if 4 ≤ total ∧ (mid < 2 ∨ 5 < mid) then
    (false, "Formation must have 2-5 MID, found " ++ toString mid)
  else if 5 ≤ total ∧ (fwd < 1 ∨ 3 < fwd) then
    (false, "Formation must have 1-3 FWD, found " ++ toString fwd)
  else
    (true, "")

/-- Return the first failing check's message, or success with no message:
the shape shared by both validators (first-error-wins). -/
def firstFailure (checks : List (Option String)) : Bool × String :=
  match checks.findSome? id with
  | some msg => (false, msg)
  | none => (true, "")

/-- The four formation rules of `validate_formation`, in source order, each
as an optional failure message. -/
def formationChecks (df : List PlayerRow) : List (Option String) :=
  let gk := countPos Pos.GK df
  let defn := countPos Pos.DEF df
  let mid := countPos Pos.MID df
  let fwd := countPos Pos.FWD df
  let total := gk + defn + mid + fwd
  [ if gk ≠ 1 then
      some ("Formation must have exactly 1 GK, found " ++ toString gk)
    else none,
    if defn < 3 ∨ 5 < defn then
      some ("Formation must have 3-5 DEF, found " ++ toString defn)
    else none,
    if 4 ≤ total ∧ (mid < 2 ∨ 5 < mid) then
      some ("Formation must have 2-5 MID, found " ++ toString mid)
    else none,
    if 5 ≤ total ∧ (fwd < 1 ∨ 3 < fwd) then
      some ("Formation must have 1-3 FWD, found " ++ toString fwd)
    else none ]

/-- The four position counts of a frame partition its rows. -/
theorem countPos_total (df : List PlayerRow) :
    countPos Pos.GK df + countPos Pos.DEF df + countPos Pos.MID df
      + countPos Pos.FWD df = df.length := by
  induction df with
  | nil => rfl
  | cons r t ih =>
    unfold countPos at ih ⊢
    cases h : r.pos <;>
      simp [List.filter_cons, h] <;> omega

/-- C7: `validate_formation` succeeds exactly when the GK count is 1, the DEF
count lies in [3,5], the MID bound [2,5] holds whenever the total size is at
least 4, and the FWD bound [1,3] holds whenever the total size is at least 5;
moreover the function returns the message of the first rule violated in the
fixed source order GK, DEF, MID, FWD. -/
theorem validate_formation_gating (df : List PlayerRow) :
    ((validate_formation df).1 = true ↔
      (countPos Pos.GK df = 1 ∧
       3 ≤ countPos Pos.DEF df ∧ countPos Pos.DEF df ≤ 5 ∧
       (4 ≤ df.length → 2 ≤ countPos Pos.MID df ∧ countPos Pos.MID df ≤ 5) ∧
       (5 ≤ df.length → 1 ≤ countPos Pos.FWD df ∧ countPos Pos.FWD df ≤ 3)))
    ∧ validate_formation df = firstFailure (formationChecks df) := by
  have htot := countPos_total df
  constructor
  · simp only [validate_formation]
    split_ifs with h1 h2 h3 h4 <;> simp <;> omega
  · simp only [validate_formation, formationChecks, firstFailure]
    split_ifs <;> simp [List.findSome?_cons]

/-- A single goalkeeper row with no minutes and no points. -/
def soloGK : PlayerRow :=
  { pid := 1, pos := Pos.GK, club := 1, points := 0, minutes := 0 }

/-- C2 counterexample: the formation check applied to a set containing exactly
one player, a GK, does NOT succeed — it fails on the DEF bound, which the code
enforces at every size. -/
theorem validate_formation_single_gk_cex :
    (validate_formation [soloGK]).1 = false := by
  decide

/-- C2 amended: the formation check applied to a set containing exactly one
player, a GK, fails, returning the DEF-bound reason: the DEF count 0 is below
the bound [3,5], which is enforced regardless of the set's size. -/
theorem validate_formation_single_gk_amended (r : PlayerRow) (h : r.pos = Pos.GK) :
    validate_formation [r] = (false, "Formation must have 3-5 DEF, found 0") := by
  unfold validate_formation countPos
  simp [List.filter_cons, h]
  decide

/-- C2 witness: the amended statement at the concrete single-GK row. -/
theorem validate_formation_single_gk_witness :
    validate_formation [soloGK] = (false, "Formation must have 3-5 DEF, found 0") :=
  validate_formation_single_gk_amended soloGK rfl

/-- Embedding of `math.ceil(0.5 * profit)` of optimiser prices: the exact ceiling of
`n / 2` on naturals (the float computation is exact on the program's range). -/
def ceilHalf (n : Nat) : Nat := (n + 1) / 2

/-- Selling price of one player in `optimize_post_gw1_step1`
(optimiser/milp/post_gw1_step1.py): 50% profit lock, rounded up. -/
def selling_price_milp (purchase current : Nat) : Nat :=
  if purchase < current then purchase + ceilHalf (current - purchase)
  else current

/-- Selling price of one player in `calculate_selling_prices`
(optimiser/cp_minizinc/post_gw1_step1_minizinc.py): the same profit lock, with
an explicit ownership guard (`purchase_price > 0`). -/
def selling_price_minizinc (purchase current : Nat) : Nat :=
  if purchase < current ∧ 0 < purchase then purchase + ceilHalf (current - purchase)
  else if 0 < purchase then current
  else 0

/-- The value `ceilHalf n` is the exact ceiling of `n / 2` over the rationals. -/
theorem ceilHalf_eq_ceil (n : Nat) : ⌈((n : ℚ) / 2 : ℚ)⌉ = (ceilHalf n : ℤ) := by
  have h1 : n ≤ 2 * ceilHalf n := by unfold ceilHalf; omega
  have h2 : 2 * ceilHalf n ≤ n + 1 := by unfold ceilHalf; omega
  rw [Int.ceil_eq_iff]
  have hq1 : (n : ℚ) ≤ 2 * (ceilHalf n : ℚ) := by exact_mod_cast h1
  have hq2 : 2 * (ceilHalf n : ℚ) ≤ (n : ℚ) + 1 := by exact_mod_cast h2
  constructor
  · push_cast
    linarith
  · push_cast
    linarith

/-- C3: for every owned player (purchase price > 0), both transfer-state
advances use the selling price `purchase + ceil((current − purchase) / 2)` when
the current cost exceeds the purchase price, and the current cost otherwise;
`ceilHalf` is the exact rounded-up half of the profit (e.g. 50, 70 ↦ 60 and
50, 45 ↦ 45). -/
theorem selling_price_profit_lock (purchase current : Nat) (h : 0 < purchase) :
    (purchase < current →
        selling_price_milp purchase current = purchase + ceilHalf (current - purchase) ∧
        selling_price_minizinc purchase current = purchase + ceilHalf (current - purchase) ∧
        (⌈(((current : ℚ) - purchase) / 2 : ℚ)⌉ = (ceilHalf (current - purchase) : ℤ))) ∧
    (current ≤ purchase →
        selling_price_milp purchase current = current ∧
        selling_price_minizinc purchase current = current) := by
  constructor
  · intro hlt
    refine ⟨by simp [selling_price_milp, hlt],
            by simp [selling_price_minizinc, hlt, h], ?_⟩
    rw [show ((current : ℚ) - purchase) = ((current - purchase : Nat) : ℚ) by
      rw [Nat.cast_sub hlt.le]]
    exact ceilHalf_eq_ceil (current - purchase)
  · intro hle
    have hnot : ¬ purchase < current := not_lt.mpr hle
    exact ⟨by simp [selling_price_milp, hnot], by simp [selling_price_minizinc, hnot, h]⟩

/-- C3 witness: the spec's two worked examples, via the theorem at (50, 70)
and (50, 45). -/
theorem selling_price_profit_lock_witness :
    selling_price_milp 50 70 = 60 ∧ selling_price_minizinc 50 70 = 60 ∧
    selling_price_milp 50 45 = 45 ∧ selling_price_minizinc 50 45 = 45 :=
  ⟨((selling_price_profit_lock 50 70 (by decide)).1 (by decide)).1,
   ((selling_price_profit_lock 50 70 (by decide)).1 (by decide)).2.1,
   ((selling_price_profit_lock 50 45 (by decide)).2 (by decide)).1,
   ((selling_price_profit_lock 50 45 (by decide)).2 (by decide)).2⟩

/-- Free-transfer update of `optimize_post_gw1_step1`
(optimiser/milp/post_gw1_step1.py):
`remaining_free_transfers = max(0, f - total_transfers_made)`. -/
def milp_remaining_free_transfers (f made : Int) : Int :=
  max 0 (f - made)

/-- Free-transfer update of `parse_post_gw1_output`
(optimiser/cp_minizinc/post_gw1_step1_minizinc.py): carryover with a cap of 2,
and a reset to 1 after paid transfers. -/
def minizinc_f_new (f made : Int) : Int :=
  if made ≤ f then
    if 0 < f - made then min 2 (1 + (f - made)) else 1
  else 1

/-- C1: the free-transfer carryover rule. The MiniZinc state advance
(`minizinc_f_new`) implements the claimed rule — in particular free=1, made=0
gives 2, free=1, made=1 gives 1, and free=1, made=3 gives 1 — but the MILP
state advance (`milp_remaining_free_transfers`) does not: at free=1, made=0 it
yields 1 where the rule requires 2, and at free=1, made=1 it yields 0 where
the rule requires 1. -/
theorem free_transfer_carryover_divergence :
    (∀ f made : Int, minizinc_f_new f made =
        if made ≤ f then
          (if 0 < f - made then min 2 (1 + (f - made)) else 1)
        else 1) ∧
    minizinc_f_new 1 0 = 2 ∧ minizinc_f_new 1 1 = 1 ∧ minizinc_f_new 1 3 = 1 ∧
    milp_remaining_free_transfers 1 0 = 1 ∧
    milp_remaining_free_transfers 1 1 = 0 :=
  ⟨fun _ _ => rfl, by decide, by decide, by decide, by decide, by decide⟩

/-- The clubs that appear in a frame with more than 3 players
(`team_counts[team_counts > 3]`), in first-encounter order. -/
def overLimitClubs (df : List PlayerRow) : List Nat :=
  ((df.map (fun r => r.club)).dedup).filter
    (fun c => 3 < (df.filter (fun r => r.club = c)).length)

/-- The club-limit violation message. The Python renders the offending clubs
from `value_counts` (count-descending); the violating set and counts are the
same, only their order in the message differs. -/
def clubViolationsMsg (df : List PlayerRow) : String :=
  "Maximum 3 players per club. Violations: " ++
    String.intercalate ", "
      ((overLimitClubs df).map
        (fun c => toString c ++ ": " ++ toString (df.filter (fun r => r.club = c)).length))

/-- Embedding of `sorted(bench_ids.keys())`. -/
def benchKeysSorted (bench : List (Nat × Nat)) : List Nat :=
  (bench.map Prod.fst).mergeSort (fun a b => decide (a ≤ b))

/-- The squad-composition loop of `validate_team`: `expected = {GK:2, DEF:5,
MID:5, FWD:3}` traversed in insertion order, returning the first mismatch. -/
def quotaCheck (df : List PlayerRow) : Option String :=
  [(Pos.GK, 2), (Pos.DEF, 5), (Pos.MID, 5), (Pos.FWD, 3)].findSome? (fun pc =>
    if countPos pc.1 df ≠ pc.2 then
      some ("Squad must have " ++ toString pc.2 ++ " " ++ posName pc.1 ++ ", found "
        ++ toString (countPos pc.1 df))
    else none)

/-- The starting-XI formation block of `validate_team` (full-size bounds,
checked GK, DEF, MID, FWD in order). -/
def xiFormationCheck (df : List PlayerRow) : Option String :=
  if countPos Pos.GK df ≠ 1 then
    some ("Starting XI must have exactly 1 GK, found " ++ toString (countPos Pos.GK df))
  else if countPos Pos.DEF df < 3 ∨ 5 < countPos Pos.DEF df then
    some ("Starting XI must have 3-5 DEF, found " ++ toString (countPos Pos.DEF df))
  else if countPos Pos.MID df < 2 ∨ 5 < countPos Pos.MID df then
    some ("Starting XI must have 2-5 MID, found " ++ toString (countPos Pos.MID df))
  else if countPos Pos.FWD df < 1 ∨ 3 < countPos Pos.FWD df then
    some ("Starting XI must have 1-3 FWD, found " ++ toString (countPos Pos.FWD df))
  else none

/-- The bench slot-1 block of `validate_team`: the slot's player must resolve
in the table and be a GK. The slot is read after the key-set check, so the
dictionary access cannot miss; a defaulted lookup models it. -/
def benchSlot1Check (gw : List PlayerRow) (bench : List (Nat × Nat)) : Option String :=
  let pid := ((bench.lookup 1).getD 0)
  match gw.find? (fun r => r.pid = pid) with
  | none => some ("Bench position 1 player (ID: " ++ toString pid ++ ") not found")
  | some p =>
    if p.pos ≠ Pos.GK then
      some ("Bench position 1 must be GK, found " ++ posName p.pos)
    else none

/-- The bench slots 2-4 loop of `validate_team`: each slot's player must
resolve in the table and be outfield; the first failure is returned. -/
def benchOutfieldCheck (gw : List PlayerRow) (bench : List (Nat × Nat)) : Option String :=
  [2, 3, 4].findSome? (fun s =>
    let pid := ((bench.lookup s).getD 0)
    match gw.find? (fun r => r.pid = pid) with
    | none =>
      some ("Bench position " ++ toString s ++ " player (ID: " ++ toString pid ++ ") not found")
    | some p =>
      if p.pos = Pos.GK then
        some ("Bench position " ++ toString s ++ " must be outfield player, found GK")
      else none)

/-- Embedding of `validate_team` from backtester/fpl_validator.py, translated check by
check in source order with its early returns. -/
def validate_team (gw : List PlayerRow) (squad_ids starter_ids : List Nat)
    (bench : List (Nat × Nat)) (captain_id vice_id : Nat) : Bool × String :=
  if squad_ids.length ≠ 15 then
    (false, "Squad must have exactly 15 players, found " ++ toString squad_ids.length)
  else
    let squad_df := gw.filter (fun r => r.pid ∈ squad_ids)
    if countPos Pos.GK squad_df ≠ 2 then
      (false, "Squad must have " ++ toString 2 ++ " " ++ posName Pos.GK ++ ", found "
        ++ toString (countPos Pos.GK squad_df))
    else if countPos Pos.DEF squad_df ≠ 5 then
      (false, "Squad must have " ++ toString 5 ++ " " ++ posName Pos.DEF ++ ", found "
        ++ toString (countPos Pos.DEF squad_df))
    else if countPos Pos.MID squad_df ≠ 5 then
      (false, "Squad must have " ++ toString 5 ++ " " ++ posName Pos.MID ++ ", found "
        ++ toString (countPos Pos.MID squad_df))
    else if countPos Pos.FWD squad_df ≠ 3 then
      (false, "Squad must have " ++ toString 3 ++ " " ++ posName Pos.FWD ++ ", found "
        ++ toString (countPos Pos.FWD squad_df))
    else if overLimitClubs squad_df ≠ [] then
      (false, clubViolationsMsg squad_df)
    else if starter_ids.length ≠ 11 then
      (false, "Starting XI must have exactly 11 players, found " ++ toString starter_ids.length)
    else
      let starters_df := gw.filter (fun r => r.pid ∈ starter_ids)
      if countPos Pos.GK starters_df ≠ 1 then
        (false, "Starting XI must have exactly 1 GK, found "
          ++ toString (countPos Pos.GK starters_df))
      else if countPos Pos.DEF starters_df < 3 ∨ 5 < countPos Pos.DEF starters_df then
        (false, "Starting XI must have 3-5 DEF, found "
          ++ toString (countPos Pos.DEF starters_df))
      else if countPos Pos.MID starters_df < 2 ∨ 5 < countPos Pos.MID starters_df then
        (false, "Starting XI must have 2-5 MID, found "
          ++ toString (countPos Pos.MID starters_df))
      else if countPos Pos.FWD starters_df < 1 ∨ 3 < countPos Pos.FWD starters_df then
        (false, "Starting XI must have 1-3 FWD, found "
          ++ toString (countPos Pos.FWD starters_df))
      else if bench.length ≠ 4 then
        (false, "Bench must have exactly 4 players, found " ++ toString bench.length)
      else if benchKeysSorted bench ≠ [1, 2, 3, 4] then
        (false, "Bench positions must be [1,2,3,4], found " ++ toString (benchKeysSorted bench))
      else
        match benchSlot1Check gw bench with
        | some msg => (false, msg)
        | none =>
          match benchOutfieldCheck gw bench with
          | some msg => (false, msg)
          | none =>
            if captain_id = vice_id then
              (false, "Captain and vice-captain must be different players")
            else if captain_id ∉ starter_ids then
              (false, "Captain (ID: " ++ toString captain_id ++ ") must be in starting XI")
            else if vice_id ∉ starter_ids then
              (false, "Vice-captain (ID: " ++ toString vice_id ++ ") must be in starting XI")
            else (true, "")

/-- The eleven checks of `validate_team` in the fixed spec order, each as an
optional failure message. -/
def teamChecks (gw : List PlayerRow) (squad_ids starter_ids : List Nat)
    (bench : List (Nat × Nat)) (captain_id vice_id : Nat) : List (Option String) :=
  let squad_df := gw.filter (fun r => r.pid ∈ squad_ids)
  let starters_df := gw.filter (fun r => r.pid ∈ starter_ids)
  [ if squad_ids.length ≠ 15 then
      some ("Squad must have exactly 15 players, found " ++ toString squad_ids.length)
    else none,
    quotaCheck squad_df,
    if overLimitClubs squad_df ≠ [] then some (clubViolationsMsg squad_df) else none,
    if starter_ids.length ≠ 11 then
      some ("Starting XI must have exactly 11 players, found " ++ toString starter_ids.length)
    else none,
    xiFormationCheck starters_df,
    if bench.length ≠ 4 then
      some ("Bench must have exactly 4 players, found " ++ toString bench.length)
    else if benchKeysSorted bench ≠ [1, 2, 3, 4] then
      some ("Bench positions must be [1,2,3,4], found " ++ toString (benchKeysSorted bench))
    else none,
    benchSlot1Check gw bench,
    benchOutfieldCheck gw bench,
    if captain_id = vice_id then
      some "Captain and vice-captain must be different players"
    else none,
    if captain_id ∉ starter_ids then
      some ("Captain (ID: " ++ toString captain_id ++ ") must be in starting XI")
    else none,
    if vice_id ∉ starter_ids then
      some ("Vice-captain (ID: " ++ toString vice_id ++ ") must be in starting XI")
    else none ]

/-- A failing check at the head of the list decides the outcome. -/
theorem firstFailure_cons_some (msg : String) (rest : List (Option String)) :
    firstFailure (some msg :: rest) = (false, msg) := by
  simp [firstFailure, List.findSome?_cons]

/-- A passing check at the head of the list defers to the rest. -/
theorem firstFailure_cons_none (rest : List (Option String)) :
    firstFailure (none :: rest) = firstFailure rest := by
  simp [firstFailure, List.findSome?_cons]

/-- A check list succeeds under `firstFailure` exactly when every check passes. -/
theorem firstFailure_eq_ok (l : List (Option String)) :
    firstFailure l = (true, "") ↔ ∀ c ∈ l, c = none := by
  unfold firstFailure
  cases h : l.findSome? id with
  | none =>
    simp only [List.findSome?_eq_none_iff] at h
    simpa using h
  | some msg =>
    have := List.exists_of_findSome?_eq_some h
    simp only [] at this
    constructor
    · intro hcontra
      simp at hcontra
    · intro hall
      obtain ⟨c, hc, hcv⟩ := this
      have := hall c hc
      simp [this] at hcv
/-- C6: team validation runs its eleven checks in the fixed spec order and
returns the reason of the first failing check only (first-error-wins, never
aggregated); it succeeds, returning no error, exactly when every check
passes. -/
theorem validate_team_first_error_wins (gw : List PlayerRow)
    (squad_ids starter_ids : List Nat) (bench : List (Nat × Nat))
    (captain_id vice_id : Nat) :
    validate_team gw squad_ids starter_ids bench captain_id vice_id
      = firstFailure (teamChecks gw squad_ids starter_ids bench captain_id vice_id) ∧
    (validate_team gw squad_ids starter_ids bench captain_id vice_id = (true, "") ↔
      ∀ c ∈ teamChecks gw squad_ids starter_ids bench captain_id vice_id, c = none) := by
  have main : validate_team gw squad_ids starter_ids bench captain_id vice_id
      = firstFailure (teamChecks gw squad_ids starter_ids bench captain_id vice_id) := by
    simp only [validate_team, teamChecks]
    set sdf := gw.filter (fun r => r.pid ∈ squad_ids) with hsdf
    set xdf := gw.filter (fun r => r.pid ∈ starter_ids) with hxdf
    by_cases h1 : squad_ids.length ≠ 15
    · simp [h1, firstFailure_cons_some]
    · rw [if_neg h1, if_neg h1, firstFailure_cons_none]
      by_cases h2a : countPos Pos.GK sdf ≠ 2
      · rw [if_pos h2a]
        have hq : quotaCheck sdf = some ("Squad must have " ++ toString 2 ++ " "
            ++ posName Pos.GK ++ ", found " ++ toString (countPos Pos.GK sdf)) := by
          simp [quotaCheck, List.findSome?_cons, h2a]
        rw [hq, firstFailure_cons_some]
      · rw [if_neg h2a]
        by_cases h2b : countPos Pos.DEF sdf ≠ 5
        · rw [if_pos h2b]
          have hq : quotaCheck sdf = some ("Squad must have " ++ toString 5 ++ " "
              ++ posName Pos.DEF ++ ", found " ++ toString (countPos Pos.DEF sdf)) := by
            simp [quotaCheck, List.findSome?_cons, h2a, h2b]
          rw [hq, firstFailure_cons_some]
        · rw [if_neg h2b]
          by_cases h2c : countPos Pos.MID sdf ≠ 5
          · rw [if_pos h2c]
            have hq : quotaCheck sdf = some ("Squad must have " ++ toString 5 ++ " "
                ++ posName Pos.MID ++ ", found " ++ toString (countPos Pos.MID sdf)) := by
              simp [quotaCheck, List.findSome?_cons, h2a, h2b, h2c]
            rw [hq, firstFailure_cons_some]
          · rw [if_neg h2c]
            by_cases h2d : countPos Pos.FWD sdf ≠ 3
            · rw [if_pos h2d]
              have hq : quotaCheck sdf = some ("Squad must have " ++ toString 3 ++ " "
                  ++ posName Pos.FWD ++ ", found " ++ toString (countPos Pos.FWD sdf)) := by
                simp [quotaCheck, List.findSome?_cons, h2a, h2b, h2c, h2d]
              rw [hq, firstFailure_cons_some]
            · rw [if_neg h2d]
              have hq : quotaCheck sdf = none := by
                simp [quotaCheck, List.findSome?_cons, h2a, h2b, h2c, h2d]
              rw [hq, firstFailure_cons_none]
              by_cases h3 : overLimitClubs sdf ≠ []
              · rw [if_pos h3, if_pos h3, firstFailure_cons_some]
              · rw [if_neg h3, if_neg h3, firstFailure_cons_none]
                by_cases h4 : starter_ids.length ≠ 11
                · rw [if_pos h4, if_pos h4, firstFailure_cons_some]
                · rw [if_neg h4, if_neg h4, firstFailure_cons_none]
                  by_cases h5a : countPos Pos.GK xdf ≠ 1
                  · rw [if_pos h5a]
                    have hx : xiFormationCheck xdf = some ("Starting XI must have exactly 1 GK, found "
                        ++ toString (countPos Pos.GK xdf)) := by
                      simp only [xiFormationCheck, if_pos h5a]
                    rw [hx, firstFailure_cons_some]
                  · rw [if_neg h5a]
                    by_cases h5b : countPos Pos.DEF xdf < 3 ∨ 5 < countPos Pos.DEF xdf
                    · rw [if_pos h5b]
                      have hx : xiFormationCheck xdf = some ("Starting XI must have 3-5 DEF, found "
                          ++ toString (countPos Pos.DEF xdf)) := by
                        simp only [xiFormationCheck, if_neg h5a, if_pos h5b]
                      rw [hx, firstFailure_cons_some]
                    · rw [if_neg h5b]
                      by_cases h5c : countPos Pos.MID xdf < 2 ∨ 5 < countPos Pos.MID xdf
                      · rw [if_pos h5c]
                        have hx : xiFormationCheck xdf = some ("Starting XI must have 2-5 MID, found "
                            ++ toString (countPos Pos.MID xdf)) := by
                          simp only [xiFormationCheck, if_neg h5a, if_neg h5b, if_pos h5c]
                        rw [hx, firstFailure_cons_some]
                      · rw [if_neg h5c]
                        by_cases h5d : countPos Pos.FWD xdf < 1 ∨ 3 < countPos Pos.FWD xdf
                        · rw [if_pos h5d]
                          have hx : xiFormationCheck xdf = some ("Starting XI must have 1-3 FWD, found "
                              ++ toString (countPos Pos.FWD xdf)) := by
                            simp only [xiFormationCheck, if_neg h5a, if_neg h5b, if_neg h5c, if_pos h5d]
                          rw [hx, firstFailure_cons_some]
                        · rw [if_neg h5d]
                          have hx : xiFormationCheck xdf = none := by
                            simp only [xiFormationCheck, if_neg h5a, if_neg h5b, if_neg h5c, if_neg h5d]
                          rw [hx, firstFailure_cons_none]
                          by_cases h6a : bench.length ≠ 4
                          · rw [if_pos h6a, if_pos h6a, firstFailure_cons_some]
                          · rw [if_neg h6a, if_neg h6a]
                            by_cases h6b : benchKeysSorted bench ≠ [1, 2, 3, 4]
                            · rw [if_pos h6b, if_pos h6b, firstFailure_cons_some]
                            · rw [if_neg h6b, if_neg h6b, firstFailure_cons_none]
                              cases hs1 : benchSlot1Check gw bench with
                              | some msg => exact (firstFailure_cons_some _ _).symm
                              | none =>
                                rw [firstFailure_cons_none]
                                cases hs2 : benchOutfieldCheck gw bench with
                                | some msg => exact (firstFailure_cons_some _ _).symm
                                | none =>
                                  rw [firstFailure_cons_none]
                                  by_cases h9 : captain_id = vice_id
                                  · rw [if_pos h9, if_pos h9, firstFailure_cons_some]
                                  · rw [if_neg h9, if_neg h9, firstFailure_cons_none]
                                    by_cases h10 : captain_id ∉ starter_ids
                                    · rw [if_pos h10, if_pos h10, firstFailure_cons_some]
                                    · rw [if_neg h10, if_neg h10, firstFailure_cons_none]
                                      by_cases h11 : vice_id ∉ starter_ids
                                      · rw [if_pos h11, if_pos h11, firstFailure_cons_some]
                                      · rw [if_neg h11, if_neg h11, firstFailure_cons_none]
                                        rfl
  exact ⟨main, by rw [main]; exact firstFailure_eq_ok _⟩

/-- With one table row per player id, a 15-id squad list that repeats an id or
names an id absent from the table resolves to fewer than 15 rows. -/
theorem squad_filter_short (gw : List PlayerRow) (squad_ids : List Nat)
    (hnd : (gw.map (fun r => r.pid)).Nodup)
    (h15 : squad_ids.length = 15)
    (hbad : ¬ squad_ids.Nodup ∨ ∃ i ∈ squad_ids, i ∉ gw.map (fun r => r.pid)) :
    (gw.filter (fun r => r.pid ∈ squad_ids)).length < 15 := by
  classical
  set sdf := gw.filter (fun r => r.pid ∈ squad_ids) with hs
  have hsub : sdf.Sublist gw := List.filter_sublist _
  have hmapsub : (sdf.map (fun r => r.pid)).Sublist (gw.map (fun r => r.pid)) :=
    hsub.map _
  have hndd : (sdf.map (fun r => r.pid)).Nodup := hnd.sublist hmapsub
  have hmem : ∀ x ∈ sdf.map (fun r => r.pid), x ∈ squad_ids := by
    intro x hx
    simp only [List.mem_map] at hx
    obtain ⟨r, hr, rfl⟩ := hx
    have := List.of_mem_filter hr
    simpa using this
  have hgw : ∀ x ∈ sdf.map (fun r => r.pid), x ∈ gw.map (fun r => r.pid) := by
    intro x hx
    exact hmapsub.subset hx
  have hlen : sdf.length = (sdf.map (fun r => r.pid)).length := by
    simp
  have hcard : (sdf.map (fun r => r.pid)).toFinset.card
      = (sdf.map (fun r => r.pid)).length :=
    List.toFinset_card_of_nodup hndd
  rcases hbad with hdup | ⟨i, hi, hni⟩
  · have hsubF : (sdf.map (fun r => r.pid)).toFinset ⊆ squad_ids.toFinset := by
      intro x hx
      exact List.mem_toFinset.mpr (hmem x (List.mem_toFinset.mp hx))
    have h1 : (sdf.map (fun r => r.pid)).toFinset.card ≤ squad_ids.toFinset.card :=
      Finset.card_le_card hsubF
    have h2 : squad_ids.toFinset.card < squad_ids.length := by
      refine lt_of_le_of_ne (List.toFinset_card_le squad_ids) ?_
      intro he
      refine hdup ?_
      have hm : (squad_ids : Multiset Nat).toFinset.card
          = Multiset.card (squad_ids : Multiset Nat) := by
        simpa using he
      simpa using Multiset.toFinset_card_eq_card_iff_nodup.mp hm
    omega
  · have hsubF : (sdf.map (fun r => r.pid)).toFinset ⊆ squad_ids.toFinset.erase i := by
      intro x hx
      have hxl := List.mem_toFinset.mp hx
      refine Finset.mem_erase.mpr ⟨?_, List.mem_toFinset.mpr (hmem x hxl)⟩
      intro hxi
      exact hni (hxi ▸ hgw x hxl)
    have h1 : (sdf.map (fun r => r.pid)).toFinset.card ≤ (squad_ids.toFinset.erase i).card :=
      Finset.card_le_card hsubF
    have h2 : (squad_ids.toFinset.erase i).card < squad_ids.toFinset.card :=
      Finset.card_erase_lt_of_mem (List.mem_toFinset.mpr hi)
    have h3 : squad_ids.toFinset.card ≤ squad_ids.length := List.toFinset_card_le squad_ids
    omega

/-- C10: with one table row per player id, team validation of a 15-id squad
list that repeats an id or names an id with no row never succeeds: fewer than
15 distinct players resolve, so the exact position quota (2,5,5,3), which sums
to 15, cannot be met and the composition check fails. -/
theorem validate_team_duplicate_or_missing_fails (gw : List PlayerRow)
    (squad_ids starter_ids : List Nat) (bench : List (Nat × Nat))
    (captain_id vice_id : Nat)
    (hnd : (gw.map (fun r => r.pid)).Nodup)
    (h15 : squad_ids.length = 15)
    (hbad : ¬ squad_ids.Nodup ∨ ∃ i ∈ squad_ids, i ∉ gw.map (fun r => r.pid)) :
    (validate_team gw squad_ids starter_ids bench captain_id vice_id).1 = false := by
  have hshort := squad_filter_short gw squad_ids hnd h15 hbad
  have hsum := countPos_total (gw.filter (fun r => r.pid ∈ squad_ids))
  simp only [validate_team]
  set sdf := gw.filter (fun r => r.pid ∈ squad_ids) with hs
  rw [if_neg (by omega : ¬ squad_ids.length ≠ 15)]
  by_cases h2a : countPos Pos.GK sdf ≠ 2
  · rw [if_pos h2a]
  · rw [if_neg h2a]
    by_cases h2b : countPos Pos.DEF sdf ≠ 5
    · rw [if_pos h2b]
    · rw [if_neg h2b]
      by_cases h2c : countPos Pos.MID sdf ≠ 5
      · rw [if_pos h2c]
      · rw [if_neg h2c]
        have h2d : countPos Pos.FWD sdf ≠ 3 := by omega
        rw [if_pos h2d]

/-- C10 witness: a 15-id squad list made of one repeated id against an empty
table is rejected. -/
theorem validate_team_duplicate_witness :
    (validate_team [] (List.replicate 15 1) [] [] 0 0).1 = false :=
  validate_team_duplicate_or_missing_fails [] (List.replicate 15 1) [] [] 0 0
    (by decide) (by decide) (Or.inl (by decide))

/-- The `captain_used` marker of the scorer: which armband was applied. -/
inductive Armband where
  | captain
  | vice
deriving DecidableEq

/-- One committed substitution record (`substitutions.append({...})`). The
Python record also carries the player's name and position; the fields below
are the ones any claim speaks about. -/
structure Substitution where
  pid : Nat
  benchPos : Nat
  points : Int
deriving DecidableEq

/-- The `details` breakdown of `calculate_gameweek_points`. The early all-blank
return in the Python builds a smaller dict (no `captain_used`, `captain_bonus`,
`base_points` or `num_active_players` keys, and `captain_points: 0`); absence
of the armband key is modelled as `captainUsed = none` with zero totals. -/
structure Details where
  substitutions : List Substitution
  captainPlayed : Bool
  vicePlayed : Bool
  captainUsed : Option Armband
  captainBonus : Int
  basePoints : Int
  numActive : Nat
deriving DecidableEq

/-- Step 2 of `calculate_gameweek_points` (backtester/fpl_point_calculator.py):
process bench slots in the given order, stopping at 11 active players,
skipping 0-minute players, committing a tentative addition only when
`validate_formation` accepts it, and recording commits in order. A bench
player id absent from the table aborts the Python with an indexing error,
modelled as `Except.error`. -/
def benchLoop (gw : List PlayerRow) (bench : List (Nat × Nat)) :
    List Nat → List PlayerRow → List Substitution →
      Except String (List PlayerRow × List Substitution)
  | [], active, subs => .ok (active, subs)
  | slot :: rest, active, subs =>
    if 11 ≤ active.length then .ok (active, subs)
    else
      match bench.lookup slot with
      | none => .error ("KeyError: " ++ toString slot)
      | some pid =>
        match gw.find? (fun r => r.pid = pid) with
        | none => .error "single positional indexer is out-of-bounds"
        | some row =>
          if row.minutes = 0 then
            benchLoop gw bench rest active subs
          else if (validate_formation (active ++ [row])).1 then
            benchLoop gw bench rest (active ++ [row])
              (subs ++ [{ pid := row.pid, benchPos := slot, points := row.points }])
          else
            benchLoop gw bench rest active subs

/-- Steps 3-5 of `calculate_gameweek_points`: base points over the final
active set, then the captain/vice armband bonus read off the first matching
active row. -/
def finalizeScore (active : List PlayerRow) (subs : List Substitution)
    (captain_id vice_id : Nat) : Int × List PlayerRow × Details :=
  let base := (active.map (fun r => r.points)).sum
  let captainPlayed : Bool := decide (captain_id ∈ active.map (fun r => r.pid))
  let vicePlayed : Bool := decide (vice_id ∈ active.map (fun r => r.pid))
  let bonusUsed : Int × Option Armband :=
    if captainPlayed then
      (((active.find? (fun r => r.pid = captain_id)).map (fun r => r.points)).getD 0,
        some Armband.captain)
    else if vicePlayed then
      (((active.find? (fun r => r.pid = vice_id)).map (fun r => r.points)).getD 0,
        some Armband.vice)
    else (0, none)
  (base + bonusUsed.1, active,
    { substitutions := subs
      captainPlayed := captainPlayed
      vicePlayed := vicePlayed
      captainUsed := bonusUsed.2
      captainBonus := bonusUsed.1
      basePoints := base
      numActive := active.length })

/-- Embedding of `calculate_gameweek_points` from backtester/fpl_point_calculator.py. -/
def calculate_gameweek_points (gw : List PlayerRow) (starter_ids : List Nat)
    (bench : List (Nat × Nat)) (captain_id vice_id : Nat) :
    Except String (Int × List PlayerRow × Details) :=
  let starters_df := gw.filter (fun r => r.pid ∈ starter_ids)
  let active := starters_df.filter (fun r => 0 < r.minutes)
  if active.isEmpty then
    .ok (0, active,
      { substitutions := []
        captainPlayed := false
        vicePlayed := false
        captainUsed := none
        captainBonus := 0
        basePoints := 0
        numActive := 0 })
  else
    match benchLoop gw bench [1, 2, 3, 4] active [] with
    | .error e => .error e
    | .ok (finalActive, subs) => .ok (finalizeScore finalActive subs captain_id vice_id)

/-- C9: a scorer run in which no starter has positive minutes returns a zero
total, an empty final active set, and a breakdown with no substitutions and no
armband used, with no bench slot processed. -/
theorem scorer_all_starters_blank (gw : List PlayerRow) (starter_ids : List Nat)
    (bench : List (Nat × Nat)) (captain_id vice_id : Nat)
    (h : ∀ r ∈ gw, r.pid ∈ starter_ids → r.minutes = 0) :
    calculate_gameweek_points gw starter_ids bench captain_id vice_id
      = .ok (0, [],
          { substitutions := []
            captainPlayed := false
            vicePlayed := false
            captainUsed := none
            captainBonus := 0
            basePoints := 0
            numActive := 0 }) := by
  have hempty : (gw.filter (fun r => r.pid ∈ starter_ids)).filter
      (fun r => 0 < r.minutes) = [] := by
    rw [List.filter_eq_nil_iff]
    intro r hr
    have hmem := List.of_mem_filter hr
    have hr' := List.mem_of_mem_filter hr
    have := h r hr' (by simpa using hmem)
    simp [this]
  simp only [calculate_gameweek_points, hempty]
  rfl

/-- C9 witness: one starter, zero minutes. -/
theorem scorer_all_starters_blank_witness :
    calculate_gameweek_points [soloGK] [1] [] 2 3
      = .ok (0, [],
          { substitutions := []
            captainPlayed := false
            vicePlayed := false
            captainUsed := none
            captainBonus := 0
            basePoints := 0
            numActive := 0 }) :=
  scorer_all_starters_blank [soloGK] [1] [] 2 3 (by decide)

/-- Whatever the bench loop commits is appended after the incoming records,
and the committed slots form a subsequence of the slots processed. -/
theorem benchLoop_subs_append (gw : List PlayerRow) (bench : List (Nat × Nat)) :
    ∀ (slots : List Nat) (active : List PlayerRow) (subs : List Substitution)
      (finalActive : List PlayerRow) (finalSubs : List Substitution),
      benchLoop gw bench slots active subs = .ok (finalActive, finalSubs) →
      ∃ t, finalSubs = subs ++ t ∧ List.Sublist (t.map (fun s => s.benchPos)) slots := by
  intro slots
  induction slots with
  | nil =>
    intro active subs fa fs h
    simp only [benchLoop, Except.ok.injEq, Prod.mk.injEq] at h
    exact ⟨[], by simp [h.2.symm], by simp⟩
  | cons slot rest ih =>
    intro active subs fa fs h
    simp only [benchLoop] at h
    by_cases h11 : 11 ≤ active.length
    · rw [if_pos h11] at h
      simp only [Except.ok.injEq, Prod.mk.injEq] at h
      exact ⟨[], by simp [h.2.symm], by simp⟩
    · rw [if_neg h11] at h
      cases hlk : bench.lookup slot with
      | none => rw [hlk] at h; simp at h
      | some pid =>
        rw [hlk] at h
        simp only [] at h
        cases hf : gw.find? (fun r => r.pid = pid) with
        | none => rw [hf] at h; simp at h
        | some row =>
          rw [hf] at h
          simp only [] at h
          by_cases hm : row.minutes = 0
          · rw [if_pos hm] at h
            obtain ⟨t, ht, hsub⟩ := ih _ _ _ _ h
            exact ⟨t, ht, hsub.cons _⟩
          · rw [if_neg hm] at h
            by_cases hv : (validate_formation (active ++ [row])).1 = true
            · rw [if_pos hv] at h
              obtain ⟨t, ht, hsub⟩ := ih _ _ _ _ h
              refine ⟨{ pid := row.pid, benchPos := slot, points := row.points } :: t, ?_, ?_⟩
              · rw [ht]
                simp
              · simpa using List.Sublist.cons₂ slot hsub
            · rw [if_neg hv] at h
              obtain ⟨t, ht, hsub⟩ := ih _ _ _ _ h
              exact ⟨t, ht, hsub.cons _⟩

/-- C5: the bench loop behaves slot by slot exactly as specified — it stops as
soon as 11 players are active, skips a 0-minute player, commits a tentative
addition exactly when the formation check accepts it (recording slot, player
id and points) and otherwise skips with no retry; the records a run commits
are appended in commit order, their slots a subsequence of the slots
processed; and the scorer runs this loop on the fixed slot order 1, 2, 3, 4. -/
theorem bench_processing_order (gw : List PlayerRow) (bench : List (Nat × Nat))
    (slot : Nat) (rest : List Nat) (active : List PlayerRow)
    (subs : List Substitution) (pid : Nat) (row : PlayerRow)
    (starter_ids : List Nat) (captain_id vice_id : Nat) :
    (11 ≤ active.length →
      benchLoop gw bench (slot :: rest) active subs = .ok (active, subs)) ∧
    (active.length < 11 → bench.lookup slot = some pid →
      gw.find? (fun r => r.pid = pid) = some row →
      ((row.minutes = 0 →
          benchLoop gw bench (slot :: rest) active subs
            = benchLoop gw bench rest active subs) ∧
       (row.minutes ≠ 0 → (validate_formation (active ++ [row])).1 = true →
          benchLoop gw bench (slot :: rest) active subs
            = benchLoop gw bench rest (active ++ [row])
                (subs ++ [{ pid := row.pid, benchPos := slot, points := row.points }])) ∧
       (row.minutes ≠ 0 → (validate_formation (active ++ [row])).1 = false →
          benchLoop gw bench (slot :: rest) active subs
            = benchLoop gw bench rest active subs))) ∧
    (∀ finalActive finalSubs,
      benchLoop gw bench (slot :: rest) active subs = .ok (finalActive, finalSubs) →
      ∃ t, finalSubs = subs ++ t ∧ List.Sublist (t.map (fun s => s.benchPos)) (slot :: rest)) ∧
    ((gw.filter (fun r => r.pid ∈ starter_ids)).filter (fun r => 0 < r.minutes) ≠ [] →
      calculate_gameweek_points gw starter_ids bench captain_id vice_id
        = match benchLoop gw bench [1, 2, 3, 4]
            ((gw.filter (fun r => r.pid ∈ starter_ids)).filter (fun r => 0 < r.minutes)) [] with
          | .error e => .error e
          | .ok p => .ok (finalizeScore p.1 p.2 captain_id vice_id)) := by
  refine ⟨?_, ?_, ?_, ?_⟩
  · intro h11
    simp only [benchLoop]
    rw [if_pos h11]
  · intro h11 hlk hf
    refine ⟨?_, ?_, ?_⟩
    · intro hm
      simp only [benchLoop]
      rw [if_neg (by omega), hlk]
      simp only []
      rw [hf]
      simp only []
      rw [if_pos hm]
    · intro hm hv
      simp only [benchLoop]
      rw [if_neg (by omega), hlk]
      simp only []
      rw [hf]
      simp only []
      rw [if_neg hm, if_pos hv]
    · intro hm hv
      simp only [benchLoop]
      rw [if_neg (by omega), hlk]
      simp only []
      rw [hf]
      simp only []
      rw [if_neg hm, if_neg (by simp [hv])]
  · exact benchLoop_subs_append gw bench (slot :: rest) active subs
  · intro hne
    simp only [calculate_gameweek_points]
    rw [if_neg (by simpa using hne)]
    rcases hbl : benchLoop gw bench [1, 2, 3, 4]
        ((gw.filter (fun r => r.pid ∈ starter_ids)).filter (fun r => 0 < r.minutes)) [] with e | p
    · rw [hbl]
    · rcases p with ⟨fa, fs⟩
      rw [hbl]

/-- The points of the first table row with the given player id (0 if none):
"the player's points" under a one-row-per-id table. -/
def tablePoints (gw : List PlayerRow) (pid : Nat) : Int :=
  ((gw.find? (fun r => r.pid = pid)).map (fun r => r.points)).getD 0

/-- The bench loop only ever adds table rows to the active set. -/
theorem benchLoop_active_mem (gw : List PlayerRow) (bench : List (Nat × Nat)) :
    ∀ (slots : List Nat) (active : List PlayerRow) (subs : List Substitution)
      (finalActive : List PlayerRow) (finalSubs : List Substitution),
      benchLoop gw bench slots active subs = .ok (finalActive, finalSubs) →
      (∀ r ∈ active, r ∈ gw) → ∀ r ∈ finalActive, r ∈ gw := by
  intro slots
  induction slots with
  | nil =>
    intro active subs fa fs h hsub
    simp only [benchLoop, Except.ok.injEq, Prod.mk.injEq] at h
    rw [← h.1]
    exact hsub
  | cons slot rest ih =>
    intro active subs fa fs h hsub
    simp only [benchLoop] at h
    by_cases h11 : 11 ≤ active.length
    · rw [if_pos h11] at h
      simp only [Except.ok.injEq, Prod.mk.injEq] at h
      rw [← h.1]
      exact hsub
    · rw [if_neg h11] at h
      cases hlk : bench.lookup slot with
      | none => rw [hlk] at h; simp at h
      | some pid =>
        rw [hlk] at h
        simp only [] at h
        cases hf : gw.find? (fun r => r.pid = pid) with
        | none => rw [hf] at h; simp at h
        | some row =>
          rw [hf] at h
          simp only [] at h
          have hrow : row ∈ gw := List.mem_of_find?_eq_some hf
          by_cases hm : row.minutes = 0
          · rw [if_pos hm] at h
            exact ih _ _ _ _ h hsub
          · rw [if_neg hm] at h
            by_cases hv : (validate_formation (active ++ [row])).1 = true
            · rw [if_pos hv] at h
              refine ih _ _ _ _ h ?_
              intro r hr
              rcases List.mem_append.mp hr with hr | hr
              · exact hsub r hr
              · simp only [List.mem_singleton] at hr
                rw [hr]
                exact hrow
            · rw [if_neg hv] at h
              exact ih _ _ _ _ h hsub

/-- Under a one-row-per-id table, looking a present id up in any subset of
the table's rows yields that id's table points. -/
theorem find?_points_of_mem (gw rows : List PlayerRow) (x : Nat)
    (hnd : (gw.map (fun r => r.pid)).Nodup)
    (hmem : ∀ r ∈ rows, r ∈ gw)
    (hx : x ∈ rows.map (fun r => r.pid)) :
    ((rows.find? (fun r => r.pid = x)).map (fun r => r.points)).getD 0
      = tablePoints gw x := by
  obtain ⟨r0, hr0, hpid0⟩ := List.mem_map.mp hx
  cases hfind : rows.find? (fun r => r.pid = x) with
  | none =>
    exfalso
    have := List.find?_eq_none.mp hfind r0 hr0
    simp [hpid0] at this
  | some r1 =>
    have hr1mem : r1 ∈ rows := List.mem_of_find?_eq_some hfind
    have hr1pid : r1.pid = x := by
      have := List.find?_some hfind
      simpa using this
    cases hfind2 : gw.find? (fun r => r.pid = x) with
    | none =>
      exfalso
      have := List.find?_eq_none.mp hfind2 r1 (hmem r1 hr1mem)
      simp [hr1pid] at this
    | some r2 =>
      have hr2mem : r2 ∈ gw := List.mem_of_find?_eq_some hfind2
      have hr2pid : r2.pid = x := by
        have := List.find?_some hfind2
        simpa using this
      have hr12 : r1 = r2 :=
        List.inj_on_of_nodup_map hnd (hmem r1 hr1mem) hr2mem (by rw [hr1pid, hr2pid])
      simp [tablePoints, hfind2, hr12]

/-- C4: for a scorer run ending with a non-empty active set, the armband
policy: a played captain contributes their points once more as the bonus (so
they are counted twice in the total — once inside the base points, once as
bonus) with the captain armband used; otherwise a played vice contributes
their points exactly once extra with the vice armband used; otherwise the
bonus is 0 and no armband is used. The total is base points plus bonus. -/
theorem armband_bonus_policy (gw : List PlayerRow) (starter_ids : List Nat)
    (bench : List (Nat × Nat)) (captain_id vice_id : Nat) (total : Int)
    (finalActive : List PlayerRow) (d : Details)
    (hnd : (gw.map (fun r => r.pid)).Nodup)
    (hrun : calculate_gameweek_points gw starter_ids bench captain_id vice_id
      = .ok (total, finalActive, d))
    (hne : finalActive ≠ []) :
    (captain_id ∈ finalActive.map (fun r => r.pid) →
      d.captainBonus = tablePoints gw captain_id ∧
      d.captainUsed = some Armband.captain ∧
      d.basePoints = (finalActive.map (fun r => r.points)).sum ∧
      total = d.basePoints + tablePoints gw captain_id) ∧
    (captain_id ∉ finalActive.map (fun r => r.pid) →
      vice_id ∈ finalActive.map (fun r => r.pid) →
      d.captainBonus = tablePoints gw vice_id ∧
      d.captainUsed = some Armband.vice ∧
      d.basePoints = (finalActive.map (fun r => r.points)).sum ∧
      total = d.basePoints + tablePoints gw vice_id) ∧
    (captain_id ∉ finalActive.map (fun r => r.pid) →
      vice_id ∉ finalActive.map (fun r => r.pid) →
      d.captainBonus = 0 ∧ d.captainUsed = none ∧ total = d.basePoints) := by
  simp only [calculate_gameweek_points] at hrun
  by_cases he : ((gw.filter (fun r => r.pid ∈ starter_ids)).filter
      (fun r => 0 < r.minutes)).isEmpty
  · rw [if_pos he] at hrun
    simp only [Except.ok.injEq, Prod.mk.injEq] at hrun
    exact absurd (hrun.2.1.symm.trans (List.isEmpty_iff.mp he)) hne
  · rw [if_neg he] at hrun
    rcases hbl : benchLoop gw bench [1, 2, 3, 4]
        ((gw.filter (fun r => r.pid ∈ starter_ids)).filter (fun r => 0 < r.minutes)) []
      with e | p
    · rw [hbl] at hrun
      simp at hrun
    · rcases p with ⟨fa, fs⟩
      rw [hbl] at hrun
      simp only [Except.ok.injEq] at hrun
      have hmem : ∀ r ∈ fa, r ∈ gw := by
        refine benchLoop_active_mem gw bench _ _ _ _ _ hbl ?_
        intro r hr
        exact List.mem_of_mem_filter (List.mem_of_mem_filter hr)
      obtain ⟨htotal, hfa, hd⟩ : total = (finalizeScore fa fs captain_id vice_id).1 ∧
          finalActive = (finalizeScore fa fs captain_id vice_id).2.1 ∧
          d = (finalizeScore fa fs captain_id vice_id).2.2 := by
        rw [hrun]
        exact ⟨rfl, rfl, rfl⟩
      have hfa' : finalActive = fa := hfa
      subst hfa'
      refine ⟨?_, ?_, ?_⟩
      · intro hc
        have hcP : decide (captain_id ∈ finalActive.map (fun r => r.pid)) = true := by
          simpa using hc
        have hbonus := find?_points_of_mem gw finalActive captain_id hnd hmem hc
        rw [htotal, hd]
        simp only [finalizeScore, hcP]
        simp [hbonus]
      · intro hc hv
        have hcP : decide (captain_id ∈ finalActive.map (fun r => r.pid)) = false := by
          simpa using hc
        have hvP : decide (vice_id ∈ finalActive.map (fun r => r.pid)) = true := by
          simpa using hv
        have hbonus := find?_points_of_mem gw finalActive vice_id hnd hmem hv
        rw [htotal, hd]
        simp only [finalizeScore, hcP, hvP]
        simp [hbonus]
      · intro hc hv
        have hcP : decide (captain_id ∈ finalActive.map (fun r => r.pid)) = false := by
          simpa using hc
        have hvP : decide (vice_id ∈ finalActive.map (fun r => r.pid)) = false := by
          simpa using hv
        rw [htotal, hd]
        simp only [finalizeScore, hcP, hvP]
        simp

/-- Witness table: a playing GK (8 points) plus four 0-minute bench players. -/
def gwW : List PlayerRow :=
  [ { pid := 1, pos := Pos.GK, club := 1, points := 8, minutes := 90 },
    { pid := 2, pos := Pos.GK, club := 1, points := 0, minutes := 0 },
    { pid := 3, pos := Pos.DEF, club := 2, points := 0, minutes := 0 },
    { pid := 4, pos := Pos.DEF, club := 3, points := 0, minutes := 0 },
    { pid := 5, pos := Pos.MID, club := 4, points := 0, minutes := 0 } ]

/-- Witness bench map: slots 1-4 to players 2-5. -/
def benchW : List (Nat × Nat) := [(1, 2), (2, 3), (3, 4), (4, 5)]

/-- Witness final active set: just the playing captain. -/
def faW : List PlayerRow :=
  [{ pid := 1, pos := Pos.GK, club := 1, points := 8, minutes := 90 }]

/-- Witness breakdown: captain played, armband used, 8 + 8 = 16. -/
def dW : Details :=
  { substitutions := []
    captainPlayed := true
    vicePlayed := false
    captainUsed := some Armband.captain
    captainBonus := 8
    basePoints := 8
    numActive := 1 }

/-- C4 witness: the armband policy at the concrete run — the captain played,
the bonus is the captain's 8 points, and the total 16 counts them twice. -/
theorem armband_bonus_policy_witness :
    dW.captainBonus = tablePoints gwW 1 ∧
    dW.captainUsed = some Armband.captain ∧
    dW.basePoints = (faW.map (fun r => r.points)).sum ∧
    (16 : Int) = dW.basePoints + tablePoints gwW 1 :=
  (armband_bonus_policy gwW [1] benchW 1 2 16 faW dW (by decide) rfl
    (by decide)).1 (by decide)

/-- The attributes `assign_bench_positions` reads off the players dictionary. -/
structure PlayerAttrs where
  position : Pos
  expected_points : Int
deriving DecidableEq

/-- Embedding of `assign_bench_positions` from optimiser/utils.py: slot 1 is the unique
bench GK; slots 2-4 are the outfield bench players stable-sorted by expected
points descending (Python's `sorted(..., reverse=True)` is stable, embedded
as a stable merge sort with the reversed comparison). -/
def assign_bench_positions (players : Nat → PlayerAttrs) (bench_ids : List Nat) :
    Except String (List Nat) :=
  let bench_gks := bench_ids.filter (fun p => (players p).position = Pos.GK)
  if bench_gks.length ≠ 1 then
    .error ("Expected exactly 1 bench GK, found " ++ toString bench_gks.length)
  else
    let gk_id := bench_gks.headD 0
    let outfield_ids := bench_ids.filter (fun p => (players p).position ≠ Pos.GK)
    if outfield_ids.length ≠ 3 then
      .error ("Expected exactly 3 bench outfield players, found "
        ++ toString outfield_ids.length)
    else
      .ok (gk_id :: outfield_ids.mergeSort
        (fun a b => decide ((players b).expected_points ≤ (players a).expected_points)))

/-- C8: when the bench holds exactly one GK and three non-GK players, slot 1
is that unique GK and slots 2-4 are the three outfield players in an order
that is a permutation of them, sorted descending by expected points, and
stable (a pair already in descending-or-tied order keeps its input order);
when the bench GK count is not 1, the derivation fails with an error. -/
theorem bench_position_assignment (players : Nat → PlayerAttrs)
    (bench_ids : List Nat) :
    (∀ gk, bench_ids.filter (fun p => (players p).position = Pos.GK) = [gk] →
      (bench_ids.filter (fun p => (players p).position ≠ Pos.GK)).length = 3 →
      ∃ out, assign_bench_positions players bench_ids = .ok (gk :: out) ∧
        out.Perm (bench_ids.filter (fun p => (players p).position ≠ Pos.GK)) ∧
        out.length = 3 ∧
        List.Pairwise
          (fun a b => (players b).expected_points ≤ (players a).expected_points) out ∧
        (∀ a b, List.Sublist [a, b]
            (bench_ids.filter (fun p => (players p).position ≠ Pos.GK)) →
          (players b).expected_points ≤ (players a).expected_points →
          List.Sublist [a, b] out)) ∧
    ((bench_ids.filter (fun p => (players p).position = Pos.GK)).length ≠ 1 →
      ∃ msg, assign_bench_positions players bench_ids = .error msg) := by
  have htrans : ∀ a b c : Nat,
      decide ((players b).expected_points ≤ (players a).expected_points) = true →
      decide ((players c).expected_points ≤ (players b).expected_points) = true →
      decide ((players c).expected_points ≤ (players a).expected_points) = true := by
    intro a b c hab hbc
    simp only [decide_eq_true_eq] at hab hbc ⊢
    exact le_trans hbc hab
  have htotal : ∀ a b : Nat,
      (decide ((players b).expected_points ≤ (players a).expected_points)
        || decide ((players a).expected_points ≤ (players b).expected_points)) = true := by
    intro a b
    simp only [Bool.or_eq_true, decide_eq_true_eq]
    exact le_total _ _
  constructor
  · intro gk hgk hout
    refine ⟨(bench_ids.filter (fun p => (players p).position ≠ Pos.GK)).mergeSort
        (fun a b => decide ((players b).expected_points ≤ (players a).expected_points)),
      ?_, ?_, ?_, ?_, ?_⟩
    · simp only [assign_bench_positions]
      rw [hgk]
      rw [if_neg (by simp)]
      rw [if_neg (by omega)]
      simp
    · exact List.mergeSort_perm _ _
    · rw [List.length_mergeSort]
      exact hout
    · have hs := List.sorted_mergeSort htrans htotal
        (bench_ids.filter (fun p => (players p).position ≠ Pos.GK))
      exact hs.imp (fun h => by simpa using h)
    · intro a b hab hord
      exact List.pair_sublist_mergeSort htrans htotal (by simpa using hord) hab
  · intro hne
    refine ⟨"Expected exactly 1 bench GK, found "
        ++ toString (bench_ids.filter (fun p => (players p).position = Pos.GK)).length, ?_⟩
    simp only [assign_bench_positions]
    rw [if_pos hne]
